import Mathlib

/-!
Shallow embedding of the edge reverse-proxy worker (`src/worker.js`).

Conventions of the embedding:
* JS `Map` objects become association lists with unique keys
  (`lookupA` / `insertA` / deletion by `List.filter` mirror
  `Map.get` / `Map.set` / `Map.delete`).
* The `Headers` API normalises header names to lower case, so header sets
  are association lists whose keys are assumed lower-cased; `headers.get`,
  `headers.set`, `headers.delete` become `lookupA`, `insertA`, `hdrDelete`.
* `Date.now()` timestamps are `Int` values threaded explicitly.
* The single outbound `fetch` to a backend is an oracle
  `String → Except String BackendResp` giving, per backend url, either the
  response or the thrown error message.
* Mutable globals (`connectionPool`, `rateLimiter.requests`,
  `CONFIG.backends` health flags, the edge cache) are collected in an
  explicit `GatewayState` record threaded through `handleRequest`.
-/

namespace Worker

/-- Association-list lookup, mirroring JS `Map.get` (first matching key). -/
def lookupA {α : Type} : List (String × α) → String → Option α
  | [], _ => none
  | (k, v) :: rest, key => if key = k then some v else lookupA rest key

/-- Association-list update, mirroring JS `Map.set`: replace the value at an
existing key in place, otherwise append the new binding. -/
def insertA {α : Type} : List (String × α) → String → α → List (String × α)
  | [], key, v => [(key, v)]
  | (k, w) :: rest, key, v =>
      if key = k then (key, v) :: rest else (k, w) :: insertA rest key v

/-- `Headers.delete`: drop every binding of the given (lower-cased) name. -/
def hdrDelete (hs : List (String × String)) (k : String) : List (String × String) :=
  hs.filter (fun p => decide (p.1 ≠ k))

/-- One backend descriptor of `CONFIG.backends`: url, priority, region and
the mutable `healthy` flag. -/
structure Backend where
  url : String
  priority : Int
  region : String
  healthy : Bool
deriving Repr, DecidableEq

/-- `CONFIG.rateLimit`. -/
structure RateLimitConfig where
  enabled : Bool
  requestsPerMinute : Nat
  windowMs : Int
deriving Repr, DecidableEq

/-- `CONFIG.cache`. -/
structure CacheConfig where
  ttl : Nat
  bypassPaths : List String
deriving Repr, DecidableEq

/-- `CONFIG.optimization`. -/
structure OptimizationConfig where
  connectionPooling : Bool
  keepAlive : Bool
  compression : Bool
  http2 : Bool
deriving Repr, DecidableEq

/-- `CONFIG.websocket`. -/
structure WebSocketConfig where
  keepAliveInterval : Int
  maxConnections : Nat
  timeout : Int
deriving Repr, DecidableEq

/-- The whole `CONFIG` object, read as an immutable snapshot (the backend
health flags themselves live in the mutable gateway state). -/
structure Config where
  backends : List Backend
  websocket : WebSocketConfig
  cache : CacheConfig
  rateLimit : RateLimitConfig
  optimization : OptimizationConfig
deriving Repr, DecidableEq

/-- The literal `CONFIG` constant of `src/worker.js`. -/
def CONFIG : Config :=
  { backends :=
      [ { url := "https://api.example.com", priority := 1, region := "us-east", healthy := true }
      , { url := "https://api-backup.example.com", priority := 2, region := "us-west", healthy := true } ]
  , websocket := { keepAliveInterval := 30000, maxConnections := 1000, timeout := 60000 }
  , cache := { ttl := 300, bypassPaths := ["/api/realtime", "/ws"] }
  , rateLimit := { enabled := true, requestsPerMinute := 100, windowMs := 60000 }
  , optimization := { connectionPooling := true, keepAlive := true, compression := true, http2 := true } }

/-- The rate limiter's `this.requests` map: client id → recorded timestamps. -/
abbrev RLState := List (String × List Int)

/-- `RateLimiter.checkLimit(clientId)` at time `now`: prune the client's
window to timestamps strictly newer than `now - windowMs`; deny when the
pruned count already reaches `requestsPerMinute`, otherwise record `now`
(appended after the pruned window) and admit. -/
def checkLimit (cfg : RateLimitConfig) (st : RLState) (clientId : String) (now : Int) :
    Bool × RLState :=
  if !cfg.enabled then (true, st)
  else
    let windowStart := now - cfg.windowMs
    let requests := (lookupA st clientId).getD []
    let requests := requests.filter (fun t => decide (t > windowStart))
    if cfg.requestsPerMinute ≤ requests.length then (false, st)
    else (true, insertA st clientId (requests ++ [now]))

/-- `RateLimiter.cleanup()` at time `now`: re-prune every client's window and
delete the clients whose pruned window is empty. -/
def cleanup (cfg : RateLimitConfig) (st : RLState) (now : Int) : RLState :=
  st.filterMap (fun e =>
    let valid := e.2.filter (fun t => decide (t > now - cfg.windowMs))
    if valid.length = 0 then none else some (e.1, valid))

/-- Stable insertion of a backend into a priority-sorted list: `b` goes
before the first element whose priority is not smaller, so earlier-original
elements of equal priority stay first (JS `Array.sort` is stable). -/
def insertByPriority (b : Backend) : List Backend → List Backend
  | [] => [b]
  | c :: rest =>
      if c.priority < b.priority then c :: insertByPriority b rest
      else b :: c :: rest

/-- Stable ascending sort by `priority`, modelling
`.sort((a, b) => a.priority - b.priority)`. -/
def sortByPriority : List Backend → List Backend
  | [] => []
  | b :: rest => insertByPriority b (sortByPriority rest)

/-- `HealthChecker.getHealthyBackends()`: the healthy backends of the
registry, sorted ascending by priority. -/
def getHealthyBackends (backends : List Backend) : List Backend :=
  sortByPriority (backends.filter (fun b => b.healthy))

/-- `SmartRouter.getRegionFromCountry(country)`: the fixed country→region
table with default `us-east`. -/
def getRegionFromCountry (country : String) : String :=
  (lookupA
    [ ("US", "us-east"), ("CA", "us-east")
    , ("GB", "eu-west"), ("DE", "eu-west"), ("FR", "eu-west")
    , ("JP", "ap-east"), ("CN", "ap-east")
    , ("AU", "ap-south") ] country).getD "us-east"

/-- An inbound request: method, split URL, and (lower-case-keyed) headers. -/
structure Request where
  method : String
  pathname : String
  search : String
  headers : List (String × String)
deriving Repr, DecidableEq

/-- `SmartRouter.selectBackend(request)` over the mutable registry: first
configured backend when none is healthy (`undefined`, i.e. `none`, on an
empty registry), else the first healthy backend in the client's resolved
region, else the healthy backend of least priority. -/
def selectBackend (backends : List Backend) (req : Request) : Option Backend :=
  let healthy := getHealthyBackends backends
  if healthy.isEmpty then backends.head?
  else
    let clientCountry := (lookupA req.headers "cf-ipcountry").getD "US"
    let clientRegion := getRegionFromCountry clientCountry
    match healthy.find? (fun b => decide (b.region = clientRegion)) with
    | some b => some b
    | none => healthy.head?

/-- `RequestOptimizer.optimizeHeaders(headers)`: strip `cookie` and
`authorization`, then conditionally set the performance headers. -/
def optimizeHeaders (opt : OptimizationConfig) (headers : List (String × String)) :
    List (String × String) :=
  let o := hdrDelete (hdrDelete headers "cookie") "authorization"
  let o := if opt.compression then insertA o "accept-encoding" "gzip, deflate, br" else o
  let o := if opt.http2 then insertA o "upgrade" "h2" else o
  let o :=
    if opt.keepAlive then
      insertA (insertA o "connection" "keep-alive") "keep-alive" "timeout=60, max=1000"
    else o
  o

/-- A response from a backend (also the shape stored in the cache). -/
structure BackendResp where
  status : Nat
  statusText : String
  headers : List (String × String)
  body : String
deriving Repr, DecidableEq

/-- The edge cache store, keyed by request URL (path + query). -/
abbrev CacheStore := List (String × BackendResp)

/-- The request identity used as the cache key. -/
def cacheKey (req : Request) : String :=
  req.pathname ++ req.search

/-- JS `String.prototype.startsWith`, as a prefix test on the character
sequences. -/
def strStartsWith (s p : String) : Bool :=
  p.data.isPrefixOf s.data

/-- `CacheManager.shouldCache(request)`: false on a configured bypass path
prefix or a non-GET method, else true. -/
def shouldCache (cfg : CacheConfig) (req : Request) : Bool :=
  if cfg.bypassPaths.any (fun p => strStartsWith req.pathname p) then false
  else if req.method ≠ "GET" then false
  else true

/-- The process-wide metrics counters of `ConnectionPool`. -/
structure Metrics where
  activeConnections : Nat
  totalRequests : Nat
  cacheHits : Nat
  cacheMisses : Nat
deriving Repr, DecidableEq

/-- `CacheManager.get(request)`: `none` without touching anything when the
request is not cacheable; otherwise look the key up, bumping `cacheHits`
on a hit and `cacheMisses` on a miss. -/
def cacheGet (cfg : CacheConfig) (req : Request) (store : CacheStore) (m : Metrics) :
    Option BackendResp × Metrics :=
  if shouldCache cfg req then
    match lookupA store (cacheKey req) with
    | some r => (some r, { m with cacheHits := m.cacheHits + 1 })
    | none => (none, { m with cacheMisses := m.cacheMisses + 1 })
  else (none, m)

/-- `CacheManager.put(request, response)`: a no-op for non-cacheable
requests; otherwise store a clone of the response with the cache headers
attached. -/
def cachePut (cfg : CacheConfig) (req : Request) (r : BackendResp) (store : CacheStore) :
    CacheStore :=
  if shouldCache cfg req then
    let hs := insertA (insertA r.headers "cache-control"
      ("public, max-age=" ++ toString cfg.ttl)) "x-cache-status" "HIT"
    insertA store (cacheKey req) { r with headers := hs }
  else store

/-- `ConnectionPool`: the connections map plus the metrics counters. -/
structure ConnectionPool where
  connections : List (String × String)
  metrics : Metrics
deriving Repr, DecidableEq

/-- A freshly constructed `ConnectionPool`. -/
def ConnectionPool.empty : ConnectionPool :=
  { connections := [], metrics := { activeConnections := 0, totalRequests := 0, cacheHits := 0, cacheMisses := 0 } }

/-- `ConnectionPool.setConnection(key, connection)`: store the connection and
set `activeConnections` to the map's size. -/
def ConnectionPool.setConnection (p : ConnectionPool) (key conn : String) : ConnectionPool :=
  let conns := insertA p.connections key conn
  { connections := conns
  , metrics := { p.metrics with activeConnections := conns.length } }

/-- `ConnectionPool.removeConnection(key)`: delete the connection and set
`activeConnections` to the map's size. -/
def ConnectionPool.removeConnection (p : ConnectionPool) (key : String) : ConnectionPool :=
  let conns := p.connections.filter (fun q => decide (q.1 ≠ key))
  { connections := conns
  , metrics := { p.metrics with activeConnections := conns.length } }

/-- Response bodies, with JSON payloads kept structured (serialisation is
plumbing outside the core). -/
inductive Body where
  | empty : Body
  | text : String → Body
  | healthJson : Metrics → List (String × Bool × Int) → Int → Body
  | metricsJson : Metrics → Nat → Int → Body
  | errorJson : (error message backend : String) → Body
  | backendBody : String → Body
deriving Repr, DecidableEq

/-- An HTTP response produced by the worker. -/
structure HttpResponse where
  status : Nat
  statusText : String
  headers : List (String × String)
  body : Body
deriving Repr, DecidableEq

/-- The result of `handleWebSocket(request)`: the HTTP response plus whether
a `WebSocketPair` was constructed and a keep-alive interval started. -/
structure WsOutcome where
  resp : HttpResponse
  pairConstructed : Bool
  keepAliveStarted : Bool
deriving Repr, DecidableEq

/-- `handleWebSocket(request)`: a 426 `Expected WebSocket` response, touching
nothing, unless the `Upgrade` header is exactly `websocket`; on upgrade,
construct the pair, accept, start the keep-alive timer and answer 101. -/
def handleWebSocket (req : Request) : WsOutcome :=
  if lookupA req.headers "upgrade" = some "websocket" then
    { resp := { status := 101, statusText := "", headers := [], body := .empty }
    , pairConstructed := true, keepAliveStarted := true }
  else
    { resp := { status := 426, statusText := "", headers := [], body := .text "Expected WebSocket" }
    , pairConstructed := false, keepAliveStarted := false }

/-- A parsed WebSocket message envelope (`JSON.parse(event.data)`): the
`type` and `timestamp` fields when present, plus the remaining fields. -/
structure WsMessage where
  type : Option String
  timestamp : Option Int
  extra : List (String × String)
deriving Repr, DecidableEq

/-- The `response` envelope the session sends back; `latency` is `none` when
the incoming message carried no `timestamp` (the JS computes `NaN` there). -/
structure WsReply where
  type : String
  data : WsMessage
  timestamp : Int
  latency : Option Int
deriving Repr, DecidableEq

/-- The session's `message` listener on a parseable payload: silently accept
a `pong`, otherwise reply with the `response` envelope echoing the payload,
stamped `now`, with round-trip latency from the payload's own timestamp. -/
def handleMessage (msg : WsMessage) (now : Int) : Option WsReply :=
  if msg.type = some "pong" then none
  else
    some { type := "response", data := msg, timestamp := now
         , latency := msg.timestamp.map (fun t => now - t) }

/-- All mutable process state touched by `handleRequest`. -/
structure GatewayState where
  pool : ConnectionPool
  rl : RLState
  backends : List Backend
  cacheStore : CacheStore
  wsPairs : Nat
  wsTimers : Nat
deriving Repr, DecidableEq

/-- The client identifier: `cf-connecting-ip` or the shared `"unknown"`. -/
def clientIdOf (req : Request) : String :=
  (lookupA req.headers "cf-connecting-ip").getD "unknown"

/-- `handleRequest(request)`: the full per-request pipeline — count the
request, serve `/health` and `/metrics`, dispatch WebSocket upgrades, rate
limit, consult the cache, route, forward once through `fetchOracle`, cache
the response, and on forward failure mark the backend unhealthy and answer
502. `elapsed` is the measured forward latency. -/
def handleRequest (cfg : Config) (st : GatewayState) (req : Request) (now : Int)
    (elapsed : Int) (fetchOracle : String → Except String BackendResp) :
    HttpResponse × GatewayState :=
  let m0 := st.pool.metrics
  let st := { st with pool := { st.pool with metrics := { m0 with totalRequests := m0.totalRequests + 1 } } }
  if req.pathname = "/health" then
    ( { status := 200, statusText := "", headers := [("content-type", "application/json")]
      , body := .healthJson st.pool.metrics
          (st.backends.map (fun b => (b.url, b.healthy, b.priority))) now }
    , st )
  else if req.pathname = "/metrics" then
    ( { status := 200, statusText := "", headers := [("content-type", "application/json")]
      , body := .metricsJson st.pool.metrics st.rl.length now }
    , st )
  else if req.pathname = "/ws" ∨ lookupA req.headers "upgrade" = some "websocket" then
    let w := handleWebSocket req
    ( w.resp
    , { st with wsPairs := st.wsPairs + (if w.pairConstructed then 1 else 0)
              , wsTimers := st.wsTimers + (if w.keepAliveStarted then 1 else 0) } )
  else
    let rlRes := checkLimit cfg.rateLimit st.rl (clientIdOf req) now
    let st := { st with rl := rlRes.2 }
    if !rlRes.1 then
      ( { status := 429, statusText := ""
        , headers := [("retry-after", "60"), ("x-rate-limit", toString cfg.rateLimit.requestsPerMinute)]
        , body := .text "Rate limit exceeded" }
      , st )
    else
      let cRes := cacheGet cfg.cache req st.cacheStore st.pool.metrics
      let st := { st with pool := { st.pool with metrics := cRes.2 } }
      match cRes.1 with
      | some r =>
          ( { status := r.status, statusText := r.statusText
            , headers := insertA (insertA r.headers "x-cache" "HIT")
                "x-cache-hits" (toString cRes.2.cacheHits)
            , body := .backendBody r.body }
          , st )
      | none =>
          match selectBackend st.backends req with
          | none =>
              ( { status := 503, statusText := "", headers := []
                , body := .text "No healthy backends available" }
              , st )
          | some b =>
              match fetchOracle b.url with
              | .ok r =>
                  let st := { st with cacheStore := cachePut cfg.cache req r st.cacheStore }
                  ( { status := r.status, statusText := r.statusText
                    , headers :=
                        insertA (insertA (insertA (insertA (insertA r.headers
                          "x-cache" "MISS") "x-backend" b.url)
                          "x-latency" (toString elapsed)) "x-region" b.region)
                          "x-powered-by" "Advanced-Ping-Booster"
                    , body := .backendBody r.body }
                  , st )
              | .error msg =>
                  let st := { st with backends := (st.backends.map
                      (fun x => if x.url = b.url then { x with healthy := false } else x)) }
                  ( { status := 502, statusText := ""
                    , headers := [("content-type", "application/json")]
                    , body := .errorJson "Backend error" msg b.url }
                  , st )

/-! ### Helper lemmas about the association-list operations -/

theorem lookupA_insertA_self {α : Type} (l : List (String × α)) (k : String) (v : α) :
    lookupA (insertA l k v) k = some v := by
  induction l with
  | nil => simp [insertA, lookupA]
  | cons e rest ih =>
      by_cases h : k = e.1
      · simp [insertA, lookupA, h]
      · simp [insertA, lookupA, h, ih]

theorem lookupA_insertA_ne {α : Type} (l : List (String × α)) (k k' : String) (v : α)
    (h : k' ≠ k) : lookupA (insertA l k v) k' = lookupA l k' := by
  induction l with
  | nil => simp [insertA, lookupA, h]
  | cons e rest ih =>
      by_cases he : k = e.1
      · subst he
        simp [insertA, lookupA, h]
      · by_cases he' : k' = e.1
        · simp [insertA, lookupA, he, he']
        · simp [insertA, lookupA, he, he', ih]

theorem lookupA_hdrDelete (l : List (String × String)) (k key : String) :
    lookupA (hdrDelete l k) key = if key = k then none else lookupA l key := by
  induction l with
  | nil => simp [hdrDelete, lookupA]
  | cons e rest ih =>
      by_cases hk : e.1 = k
      · by_cases hkey : key = e.1 <;>
          simp_all [hdrDelete, lookupA]
      · by_cases hkey : key = e.1
        · subst hkey
          simp_all [hdrDelete, lookupA]
        · simp_all [hdrDelete, lookupA]

theorem lookupA_eq_none_of_not_mem {α : Type} (l : List (String × α)) (k : String)
    (h : k ∉ l.map Prod.fst) : lookupA l k = none := by
  induction l with
  | nil => rfl
  | cons e rest ih =>
      simp only [List.map_cons, List.mem_cons] at h
      push_neg at h
      simp [lookupA, h.1, ih h.2]

theorem mem_insertByPriority (a b : Backend) (l : List Backend) :
    a ∈ insertByPriority b l ↔ a = b ∨ a ∈ l := by
  induction l with
  | nil => simp [insertByPriority]
  | cons c rest ih =>
      by_cases h : c.priority < b.priority
      · simp only [insertByPriority, if_pos h, List.mem_cons, ih]
        tauto
      · simp only [insertByPriority, if_neg h, List.mem_cons]

theorem mem_sortByPriority (a : Backend) (l : List Backend) :
    a ∈ sortByPriority l ↔ a ∈ l := by
  induction l with
  | nil => simp [sortByPriority]
  | cons b rest ih =>
      simp [sortByPriority, mem_insertByPriority, ih]

/-! ### Claim theorems -/

/-- Claim C1: with rate limiting enabled, `checkLimit(clientId)` at `now`
admits and stores the pruned window with `now` appended iff the count of
recorded timestamps strictly newer than `now - windowMs` is below
`requestsPerMinute`, and otherwise denies leaving the table untouched; and
concretely with limit 2 per 60000 ms window, requests at 0 and 5 are
admitted, the third at 10 is denied, and a request at 60001 is admitted. -/
theorem checkLimit_admit_iff :
    (∀ (cfg : RateLimitConfig) (st : RLState) (cid : String) (now : Int),
      cfg.enabled = true →
      (((lookupA st cid).getD []).filter (fun t => decide (t > now - cfg.windowMs))).length
          < cfg.requestsPerMinute →
      checkLimit cfg st cid now =
        (true, insertA st cid
          ((((lookupA st cid).getD []).filter (fun t => decide (t > now - cfg.windowMs))) ++ [now]))) ∧
    (∀ (cfg : RateLimitConfig) (st : RLState) (cid : String) (now : Int),
      cfg.enabled = true →
      cfg.requestsPerMinute ≤
        (((lookupA st cid).getD []).filter (fun t => decide (t > now - cfg.windowMs))).length →
      checkLimit cfg st cid now = (false, st)) ∧
    ((checkLimit { enabled := true, requestsPerMinute := 2, windowMs := 60000 } [] "c" 0).1 = true ∧
     (checkLimit { enabled := true, requestsPerMinute := 2, windowMs := 60000 }
        (checkLimit { enabled := true, requestsPerMinute := 2, windowMs := 60000 } [] "c" 0).2 "c" 5).1 = true ∧
     (checkLimit { enabled := true, requestsPerMinute := 2, windowMs := 60000 }
        (checkLimit { enabled := true, requestsPerMinute := 2, windowMs := 60000 }
          (checkLimit { enabled := true, requestsPerMinute := 2, windowMs := 60000 } [] "c" 0).2 "c" 5).2 "c" 10).1 = false ∧
     (checkLimit { enabled := true, requestsPerMinute := 2, windowMs := 60000 }
        (checkLimit { enabled := true, requestsPerMinute := 2, windowMs := 60000 }
          (checkLimit { enabled := true, requestsPerMinute := 2, windowMs := 60000 } [] "c" 0).2 "c" 5).2 "c" 60001).1 = true) := by
  refine ⟨?_, ?_, by decide⟩
  · intro cfg st cid now he hlt
    simp only [checkLimit, he, Bool.not_true, Bool.false_eq_true, if_false, if_neg (Nat.not_le.mpr hlt)]
  · intro cfg st cid now he hge
    simp only [checkLimit, he, Bool.not_true, Bool.false_eq_true, if_false, if_pos hge]

/-- Witness for C1: the first conjunct applied at the concrete first
request of the scenario. -/
theorem checkLimit_admit_iff_witness :
    checkLimit { enabled := true, requestsPerMinute := 2, windowMs := 60000 } [] "c" 0
      = (true, [("c", [(0 : Int)])]) := by
  have h := checkLimit_admit_iff.1
    { enabled := true, requestsPerMinute := 2, windowMs := 60000 } [] "c" 0 rfl (by decide)
  simpa using h

theorem lookupA_cleanup_none (cfg : RateLimitConfig) (st : RLState) (now : Int) (cid : String)
    (h : lookupA st cid = none) : lookupA (cleanup cfg st now) cid = none := by
  induction st with
  | nil => rfl
  | cons e rest ih =>
      simp only [lookupA] at h
      by_cases hc : cid = e.1
      · simp [hc] at h
      · rw [if_neg hc] at h
        simp only [cleanup, List.filterMap_cons]
        by_cases hval : (e.2.filter (fun t => decide (t > now - cfg.windowMs))).length = 0
        · rw [if_pos hval]
          exact ih h
        · rw [if_neg hval]
          simp only [lookupA, if_neg hc]
          exact ih h

/-- Claim C8: after `cleanup()` at `now`, a client id is present in the rate
limiter's table iff it had a recorded timestamp strictly newer than
`now - windowMs`, and every surviving entry is exactly the pruned window, so
it holds in-window timestamps only. -/
theorem cleanup_bounds_memory (cfg : RateLimitConfig) (st : RLState) (now : Int) (cid : String)
    (hnd : (st.map Prod.fst).Nodup) :
    ((lookupA (cleanup cfg st now) cid).isSome = true ↔
      ∃ t ∈ (lookupA st cid).getD [], t > now - cfg.windowMs) ∧
    (∀ ts, lookupA (cleanup cfg st now) cid = some ts →
      ts = ((lookupA st cid).getD []).filter (fun t => decide (t > now - cfg.windowMs)) ∧
      ∀ t ∈ ts, t > now - cfg.windowMs) := by
  induction st with
  | nil =>
      simp [cleanup, lookupA]
  | cons e rest ih =>
      obtain ⟨k, ts0⟩ := e
      simp only [List.map_cons, List.nodup_cons] at hnd
      obtain ⟨hk, hrest⟩ := hnd
      by_cases hc : cid = k
      · subst hc
        have hlook : lookupA ((cid, ts0) :: rest) cid = some ts0 := by
          simp [lookupA]
        have hrestnone : lookupA rest cid = none :=
          lookupA_eq_none_of_not_mem rest cid hk
        rw [hlook]
        simp only [cleanup, List.filterMap_cons]
        by_cases hval :
            (ts0.filter (fun t => decide (t > now - cfg.windowMs))).length = 0
        · have hnil : ts0.filter (fun t => decide (t > now - cfg.windowMs)) = [] :=
            List.length_eq_zero.mp hval
          rw [if_pos hval]
          have hnone : lookupA (cleanup cfg rest now) cid = none :=
            lookupA_cleanup_none cfg rest now cid hrestnone
          simp only [cleanup] at hnone
          rw [hnone]
          constructor
          · simp only [Option.isSome_none, Bool.false_eq_true, false_iff]
            rintro ⟨t, htmem, htwin⟩
            have : t ∈ ts0.filter (fun t => decide (t > now - cfg.windowMs)) := by
              simp only [List.mem_filter, decide_eq_true_eq]
              exact ⟨by simpa using htmem, htwin⟩
            simp [hnil] at this
          · intro ts hts
            simp at hts
        · rw [if_neg hval]
          have hsome : ∀ tail : RLState,
              lookupA ((cid, ts0.filter (fun t => decide (t > now - cfg.windowMs))) :: tail) cid
                = some (ts0.filter (fun t => decide (t > now - cfg.windowMs))) := by
            intro tail
            simp [lookupA]
          rw [hsome]
          constructor
          · simp only [Option.isSome_some, true_iff]
            obtain ⟨t, htmem⟩ := List.exists_mem_of_length_pos (Nat.pos_of_ne_zero hval)
            simp only [List.mem_filter, decide_eq_true_eq] at htmem
            exact ⟨t, by simpa using htmem.1, htmem.2⟩
          · intro ts hts
            injection hts with hts
            subst hts
            refine ⟨by simp, ?_⟩
            intro t htmem
            simp only [List.mem_filter, decide_eq_true_eq] at htmem
            exact htmem.2
      · have hlook : lookupA ((k, ts0) :: rest) cid = lookupA rest cid := by
          simp [lookupA, hc]
        rw [hlook]
        have hstep : lookupA (cleanup cfg ((k, ts0) :: rest) now) cid
            = lookupA (cleanup cfg rest now) cid := by
          simp only [cleanup, List.filterMap_cons]
          by_cases hval : (ts0.filter (fun t => decide (t > now - cfg.windowMs))).length = 0
          · rw [if_pos hval]
          · rw [if_neg hval]
            simp only [lookupA, if_neg hc]
        rw [hstep]
        exact ih hrest

/-- Witness for C8: at a concrete table with one stale and one live client,
cleanup keeps exactly the live client's in-window timestamps. -/
theorem cleanup_bounds_memory_witness :
    ((lookupA (cleanup { enabled := true, requestsPerMinute := 2, windowMs := 60000 }
        [("old", [(1 : Int)]), ("live", [2, 70000])] 70001) "live").isSome = true ↔
      ∃ t ∈ (lookupA [("old", [(1 : Int)]), ("live", [2, 70000])] "live").getD [],
        t > 70001 - (60000 : Int)) := by
  exact (cleanup_bounds_memory { enabled := true, requestsPerMinute := 2, windowMs := 60000 }
    [("old", [(1 : Int)]), ("live", [2, 70000])] 70001 "live" (by decide)).1

theorem cacheGet_metrics (cfg : CacheConfig) (req : Request) (store : CacheStore) (m : Metrics) :
    (cacheGet cfg req store m).2.totalRequests = m.totalRequests ∧
    m.cacheHits ≤ (cacheGet cfg req store m).2.cacheHits ∧
    m.cacheMisses ≤ (cacheGet cfg req store m).2.cacheMisses ∧
    (cacheGet cfg req store m).2.activeConnections = m.activeConnections := by
  simp only [cacheGet]
  by_cases h : shouldCache cfg req = true
  · rw [if_pos h]
    cases lookupA store (cacheKey req) <;> simp
  · rw [if_neg h]
    simp

/-- Claim C2 counterexample: `activeConnections` is not non-decreasing —
`removeConnection` on a pool holding one connection drops it from 1 to 0. -/
theorem metrics_not_monotone_counterexample :
    ¬ ((ConnectionPool.empty.setConnection "a" "c1").metrics.activeConnections ≤
       (((ConnectionPool.empty.setConnection "a" "c1").removeConnection "a").metrics.activeConnections)) := by
  decide

/-- Claim C2 (amended): `totalRequests`, `cacheHits` and `cacheMisses` are
non-decreasing, `totalRequests` grows by exactly 1 per inbound request
regardless of outcome, and the request pipeline never changes
`activeConnections`; but `activeConnections` merely tracks the connection
map's size — the pool operations leave the other counters unchanged while
`removeConnection` can strictly decrease `activeConnections`. -/
theorem metrics_amended_monotone :
    (∀ (cfg : Config) (st : GatewayState) (req : Request) (now elapsed : Int)
        (oracle : String → Except String BackendResp),
      (handleRequest cfg st req now elapsed oracle).2.pool.metrics.totalRequests
          = st.pool.metrics.totalRequests + 1 ∧
      st.pool.metrics.cacheHits ≤
          (handleRequest cfg st req now elapsed oracle).2.pool.metrics.cacheHits ∧
      st.pool.metrics.cacheMisses ≤
          (handleRequest cfg st req now elapsed oracle).2.pool.metrics.cacheMisses ∧
      (handleRequest cfg st req now elapsed oracle).2.pool.metrics.activeConnections
          = st.pool.metrics.activeConnections) ∧
    (∀ (p : ConnectionPool) (k c : String),
      (p.setConnection k c).metrics.totalRequests = p.metrics.totalRequests ∧
      (p.setConnection k c).metrics.cacheHits = p.metrics.cacheHits ∧
      (p.setConnection k c).metrics.cacheMisses = p.metrics.cacheMisses ∧
      (p.removeConnection k).metrics.totalRequests = p.metrics.totalRequests ∧
      (p.removeConnection k).metrics.cacheHits = p.metrics.cacheHits ∧
      (p.removeConnection k).metrics.cacheMisses = p.metrics.cacheMisses) ∧
    (((ConnectionPool.empty.setConnection "a" "c1").removeConnection "a").metrics.activeConnections
       < (ConnectionPool.empty.setConnection "a" "c1").metrics.activeConnections) := by
  refine ⟨?_, ?_, by decide⟩
  · intro cfg st req now elapsed oracle
    simp only [handleRequest]
    by_cases h1 : req.pathname = "/health"
    · rw [if_pos h1]
      simp
    rw [if_neg h1]
    by_cases h2 : req.pathname = "/metrics"
    · rw [if_pos h2]
      simp
    rw [if_neg h2]
    by_cases h3 : req.pathname = "/ws" ∨ lookupA req.headers "upgrade" = some "websocket"
    · rw [if_pos h3]
      simp
    rw [if_neg h3]
    by_cases h4 : (!(checkLimit cfg.rateLimit st.rl (clientIdOf req) now).1) = true
    · rw [if_pos h4]
      simp
    rw [if_neg h4]
    have hm := cacheGet_metrics cfg.cache req st.cacheStore
      { st.pool.metrics with totalRequests := st.pool.metrics.totalRequests + 1 }
    cases hc : (cacheGet cfg.cache req st.cacheStore
        { st.pool.metrics with totalRequests := st.pool.metrics.totalRequests + 1 }).1 with
    | some r =>
        simp only [hc] at hm ⊢
        exact ⟨hm.1, hm.2.1, hm.2.2.1, hm.2.2.2⟩
    | none =>
        simp only [hc] at hm ⊢
        cases hs : selectBackend st.backends req with
        | none =>
            simp only [hs]
            exact ⟨hm.1, hm.2.1, hm.2.2.1, hm.2.2.2⟩
        | some b =>
            simp only [hs]
            cases ho : oracle b.url with
            | ok r =>
                simp only [ho]
                exact ⟨hm.1, hm.2.1, hm.2.2.1, hm.2.2.2⟩
            | error msg =>
                simp only [ho]
                exact ⟨hm.1, hm.2.1, hm.2.2.1, hm.2.2.2⟩
  · intro p k c
    simp [ConnectionPool.setConnection, ConnectionPool.removeConnection]

/-- Claim C3: whenever some healthy backend sits in the region resolved from
the request's `cf-ipcountry` hint, selection returns a healthy backend of
that region (priority notwithstanding); concretely, healthy A (us-east,
priority 1) and healthy B (eu-west, priority 2) with a GB request select B. -/
theorem selectBackend_region_affinity :
    (∀ (backends : List Backend) (req : Request) (b : Backend),
      b ∈ backends → b.healthy = true →
      b.region = getRegionFromCountry ((lookupA req.headers "cf-ipcountry").getD "US") →
      ∃ b', selectBackend backends req = some b' ∧ b'.healthy = true ∧
        b'.region = getRegionFromCountry ((lookupA req.headers "cf-ipcountry").getD "US")) ∧
    (selectBackend
        [ { url := "A", priority := 1, region := "us-east", healthy := true }
        , { url := "B", priority := 2, region := "eu-west", healthy := true } ]
        { method := "GET", pathname := "/x", search := "", headers := [("cf-ipcountry", "GB")] }
      = some { url := "B", priority := 2, region := "eu-west", healthy := true }) := by
  refine ⟨?_, by decide⟩
  intro backends req b hmem hhealthy hregion
  have hmemF : b ∈ backends.filter (fun x => x.healthy) :=
    List.mem_filter.mpr ⟨hmem, hhealthy⟩
  have hmemH : b ∈ getHealthyBackends backends :=
    (mem_sortByPriority b _).mpr hmemF
  have hne : (getHealthyBackends backends).isEmpty = false := by
    cases h' : getHealthyBackends backends with
    | nil =>
        rw [h'] at hmemH
        simp at hmemH
    | cons x xs => rfl
  have hfindSome : ((getHealthyBackends backends).find?
      (fun x => decide (x.region =
        getRegionFromCountry ((lookupA req.headers "cf-ipcountry").getD "US")))).isSome = true := by
    apply List.find?_isSome.mpr
    exact ⟨b, hmemH, by simp [hregion]⟩
  obtain ⟨y, hy⟩ := Option.isSome_iff_exists.mp hfindSome
  have hyreg : y.region =
      getRegionFromCountry ((lookupA req.headers "cf-ipcountry").getD "US") := by
    have := List.find?_some hy
    simpa using this
  have hymem : y ∈ getHealthyBackends backends := List.mem_of_find?_eq_some hy
  have hyhealthy : y.healthy = true := by
    have := (mem_sortByPriority y _).mp hymem
    exact (List.mem_filter.mp this).2
  refine ⟨y, ?_, hyhealthy, hyreg⟩
  simp only [selectBackend, hne, Bool.false_eq_true, if_false, hy]

/-- Witness for C3: the general statement applied to the concrete two-backend
registry of the claim. -/
theorem selectBackend_region_affinity_witness :
    ∃ b', selectBackend
        [ { url := "A", priority := 1, region := "us-east", healthy := true }
        , { url := "B", priority := 2, region := "eu-west", healthy := true } ]
        { method := "GET", pathname := "/x", search := "", headers := [("cf-ipcountry", "GB")] }
      = some b' ∧ b'.healthy = true ∧
      b'.region = getRegionFromCountry
        ((lookupA [("cf-ipcountry", "GB")] "cf-ipcountry").getD "US") :=
  selectBackend_region_affinity.1 _ _
    { url := "B", priority := 2, region := "eu-west", healthy := true }
    (by decide) rfl (by decide)

/-- Claim C7: with no healthy backend, selection deterministically returns
the registry's first configured backend, identically across repeated calls. -/
theorem selectBackend_degraded_first (backends : List Backend) (r1 r2 : Request)
    (h : ∀ b ∈ backends, b.healthy = false) :
    selectBackend backends r1 = backends.head? ∧
    selectBackend backends r1 = selectBackend backends r2 := by
  have hfil : backends.filter (fun b => b.healthy) = [] := by
    rw [List.filter_eq_nil_iff]
    intro b hb
    simp [h b hb]
  have hget : getHealthyBackends backends = [] := by
    simp [getHealthyBackends, hfil, sortByPriority]
  have hall : ∀ r : Request, selectBackend backends r = backends.head? := by
    intro r
    simp [selectBackend, hget]
  exact ⟨hall r1, (hall r1).trans (hall r2).symm⟩

/-- Witness for C7: a registry of two unhealthy backends yields its first
entry for two different requests. -/
theorem selectBackend_degraded_first_witness :
    selectBackend
        [ { url := "A", priority := 1, region := "us-east", healthy := false }
        , { url := "B", priority := 2, region := "eu-west", healthy := false } ]
        { method := "GET", pathname := "/x", search := "", headers := [] }
      = some { url := "A", priority := 1, region := "us-east", healthy := false } ∧
    selectBackend
        [ { url := "A", priority := 1, region := "us-east", healthy := false }
        , { url := "B", priority := 2, region := "eu-west", healthy := false } ]
        { method := "GET", pathname := "/x", search := "", headers := [] }
      = selectBackend
        [ { url := "A", priority := 1, region := "us-east", healthy := false }
        , { url := "B", priority := 2, region := "eu-west", healthy := false } ]
        { method := "POST", pathname := "/y", search := "", headers := [("cf-ipcountry", "GB")] } :=
  selectBackend_degraded_first _ _ _ (by decide)

theorem lookupA_insertA_ne' {α : Type} {k k' : String} (h : k' ≠ k)
    (l : List (String × α)) (v : α) :
    lookupA (insertA l k v) k' = lookupA l k' :=
  lookupA_insertA_ne l k k' v h

/-- Claim C6: header rewriting is a pure function of the input header set
(and the immutable optimization flags), and its result never contains a
`cookie` or an `authorization` header. -/
theorem optimizeHeaders_strips_credentials (opt : OptimizationConfig)
    (hs : List (String × String)) :
    lookupA (optimizeHeaders opt hs) "cookie" = none ∧
    lookupA (optimizeHeaders opt hs) "authorization" = none := by
  have hcookie : lookupA (hdrDelete (hdrDelete hs "cookie") "authorization") "cookie" = none := by
    rw [lookupA_hdrDelete, if_neg (by decide), lookupA_hdrDelete, if_pos rfl]
  have hauth : lookupA (hdrDelete (hdrDelete hs "cookie") "authorization") "authorization" = none := by
    rw [lookupA_hdrDelete, if_pos rfl]
  have n1 : ("cookie" : String) ≠ "accept-encoding" := by decide
  have n2 : ("cookie" : String) ≠ "upgrade" := by decide
  have n3 : ("cookie" : String) ≠ "connection" := by decide
  have n4 : ("cookie" : String) ≠ "keep-alive" := by decide
  have m1 : ("authorization" : String) ≠ "accept-encoding" := by decide
  have m2 : ("authorization" : String) ≠ "upgrade" := by decide
  have m3 : ("authorization" : String) ≠ "connection" := by decide
  have m4 : ("authorization" : String) ≠ "keep-alive" := by decide
  constructor <;>
  · simp only [optimizeHeaders]
    by_cases c1 : opt.compression = true <;> by_cases c2 : opt.http2 = true <;>
      by_cases c3 : opt.keepAlive = true <;>
        simp [c1, c2, c3, lookupA_insertA_ne' n1, lookupA_insertA_ne' n2,
          lookupA_insertA_ne' n3, lookupA_insertA_ne' n4,
          lookupA_insertA_ne' m1, lookupA_insertA_ne' m2,
          lookupA_insertA_ne' m3, lookupA_insertA_ne' m4, hcookie, hauth]

/-- Claim C4: `shouldCache` is false exactly when the method is not GET or
the path starts with a configured bypass prefix; and a GET to a bypass path
neither reads the cache store (nor its metrics) nor writes to it. -/
theorem shouldCache_iff_bypass_untouched :
    (∀ (cfg : CacheConfig) (req : Request),
      shouldCache cfg req = false ↔
        (req.method ≠ "GET" ∨ ∃ p ∈ cfg.bypassPaths, strStartsWith req.pathname p = true)) ∧
    (∀ (cfg : CacheConfig) (req : Request) (store : CacheStore) (m : Metrics) (r : BackendResp),
      req.method = "GET" → (∃ p ∈ cfg.bypassPaths, strStartsWith req.pathname p = true) →
      cacheGet cfg req store m = (none, m) ∧ cachePut cfg req r store = store ∧
      ∀ n : Nat, (fun s => cachePut cfg req r s)^[n] store = store) := by
  constructor
  · intro cfg req
    constructor
    · intro hf
      by_cases hA : cfg.bypassPaths.any (fun p => strStartsWith req.pathname p) = true
      · obtain ⟨p, hp, hs⟩ := List.any_eq_true.mp hA
        exact Or.inr ⟨p, hp, hs⟩
      · by_cases hM : req.method = "GET"
        · exfalso
          simp [shouldCache, hA, hM] at hf
        · exact Or.inl hM
    · intro h
      rcases h with hM | ⟨p, hp, hs⟩
      · simp only [shouldCache]
        by_cases hA : cfg.bypassPaths.any (fun p => strStartsWith req.pathname p) = true
        · rw [if_pos hA]
        · rw [if_neg hA, if_pos hM]
      · have hA : cfg.bypassPaths.any (fun q => strStartsWith req.pathname q) = true :=
          List.any_eq_true.mpr ⟨p, hp, hs⟩
        simp [shouldCache, hA]
  · intro cfg req store m r hM hbp
    obtain ⟨p, hp, hs⟩ := hbp
    have hA : cfg.bypassPaths.any (fun q => strStartsWith req.pathname q) = true :=
      List.any_eq_true.mpr ⟨p, hp, hs⟩
    have hsc : shouldCache cfg req = false := by
      simp [shouldCache, hA]
    refine ⟨by simp [cacheGet, hsc], by simp [cachePut, hsc], ?_⟩
    intro n
    induction n with
    | zero => rfl
    | succ k ih =>
        rw [Function.iterate_succ_apply]
        simpa [cachePut, hsc] using ih

/-- Witness for C4: a GET to the bypass-listed `/api/realtime/feed` path of
the shipped configuration touches neither store nor metrics. -/
theorem shouldCache_iff_bypass_untouched_witness :
    cacheGet CONFIG.cache
        { method := "GET", pathname := "/api/realtime/feed", search := "", headers := [] }
        [] { activeConnections := 0, totalRequests := 7, cacheHits := 1, cacheMisses := 2 }
      = (none, { activeConnections := 0, totalRequests := 7, cacheHits := 1, cacheMisses := 2 }) ∧
    cachePut CONFIG.cache
        { method := "GET", pathname := "/api/realtime/feed", search := "", headers := [] }
        { status := 200, statusText := "OK", headers := [], body := "x" } []
      = [] := by
  have h := shouldCache_iff_bypass_untouched.2 CONFIG.cache
    { method := "GET", pathname := "/api/realtime/feed", search := "", headers := [] }
    [] { activeConnections := 0, totalRequests := 7, cacheHits := 1, cacheMisses := 2 }
    { status := 200, statusText := "OK", headers := [], body := "x" }
    rfl ⟨"/api/realtime", by decide, by decide⟩
  exact ⟨h.1, h.2.1⟩

/-- Claim C9: every parseable non-`pong` envelope gets back a `response`
envelope holding exactly the received payload, the send time `now`, and the
round-trip latency computed from the payload's own timestamp when present. -/
theorem handleMessage_response_envelope (msg : WsMessage) (now : Int)
    (h : msg.type ≠ some "pong") :
    handleMessage msg now =
      some { type := "response", data := msg, timestamp := now
           , latency := msg.timestamp.map (fun t => now - t) } ∧
    ∀ t, msg.timestamp = some t →
      ∃ r, handleMessage msg now = some r ∧ r.latency = some (now - t) := by
  refine ⟨by simp [handleMessage, h], ?_⟩
  intro t ht
  refine ⟨{ type := "response", data := msg, timestamp := now
          , latency := msg.timestamp.map (fun t => now - t) }, by simp [handleMessage, h], ?_⟩
  simp [ht]

/-- Witness for C9: a `message` envelope timestamped 100 answered at 130
yields a `response` envelope with latency 30. -/
theorem handleMessage_response_envelope_witness :
    handleMessage { type := some "message", timestamp := some 100, extra := [] } 130
      = some { type := "response"
             , data := { type := some "message", timestamp := some 100, extra := [] }
             , timestamp := 130, latency := some 30 } := by
  have h := (handleMessage_response_envelope
    { type := some "message", timestamp := some (100 : Int), extra := [] } 130 (by decide)).1
  exact h.trans (by decide)

/-- Claim C10: a request to `/ws` without `Upgrade: websocket` gets a 426
`Expected WebSocket` response, and no WebSocket pair is constructed nor
keep-alive timer started. -/
theorem ws_without_upgrade_426
    (cfg : Config) (st : GatewayState) (req : Request) (now elapsed : Int)
    (oracle : String → Except String BackendResp)
    (hp : req.pathname = "/ws")
    (hu : lookupA req.headers "upgrade" ≠ some "websocket") :
    (handleRequest cfg st req now elapsed oracle).1.status = 426 ∧
    (handleRequest cfg st req now elapsed oracle).1.body = .text "Expected WebSocket" ∧
    (handleRequest cfg st req now elapsed oracle).2.wsPairs = st.wsPairs ∧
    (handleRequest cfg st req now elapsed oracle).2.wsTimers = st.wsTimers := by
  have h1 : req.pathname ≠ "/health" := by
    rw [hp]
    decide
  have h2 : req.pathname ≠ "/metrics" := by
    rw [hp]
    decide
  have h3 : req.pathname = "/ws" ∨ lookupA req.headers "upgrade" = some "websocket" :=
    Or.inl hp
  have hwo : handleWebSocket req =
      { resp := { status := 426, statusText := "", headers := []
                , body := .text "Expected WebSocket" }
      , pairConstructed := false, keepAliveStarted := false } := by
    simp only [handleWebSocket, if_neg hu]
  refine ⟨?_, ?_, ?_, ?_⟩ <;>
    simp [handleRequest, if_neg h1, if_neg h2, if_pos h3, hwo]

/-- Witness for C10: a concrete plain GET to `/ws` in the shipped config. -/
theorem ws_without_upgrade_426_witness :
    (handleRequest CONFIG
        { pool := ConnectionPool.empty, rl := [], backends := CONFIG.backends
        , cacheStore := [], wsPairs := 0, wsTimers := 0 }
        { method := "GET", pathname := "/ws", search := "", headers := [] }
        0 0 (fun _ => .error "unreachable")).1.status = 426 ∧
    (handleRequest CONFIG
        { pool := ConnectionPool.empty, rl := [], backends := CONFIG.backends
        , cacheStore := [], wsPairs := 0, wsTimers := 0 }
        { method := "GET", pathname := "/ws", search := "", headers := [] }
        0 0 (fun _ => .error "unreachable")).2.wsPairs = 0 := by
  have h := ws_without_upgrade_426 CONFIG
    { pool := ConnectionPool.empty, rl := [], backends := CONFIG.backends
    , cacheStore := [], wsPairs := 0, wsTimers := 0 }
    { method := "GET", pathname := "/ws", search := "", headers := [] }
    0 0 (fun _ => .error "unreachable") rfl (by decide)
  exact ⟨h.1, h.2.2.1⟩

/-- Claim C5: when the forward to the selected backend fails, the gateway
marks that backend unhealthy at once, answers 502 with the JSON body
`error`/`message`/`backend`, and never consults any other backend (the
result depends on the fetch oracle only at the selected backend's url). -/
theorem forward_failure_marks_unhealthy_502
    (cfg : Config) (st : GatewayState) (req : Request) (now elapsed : Int)
    (oracle : String → Except String BackendResp) (b : Backend) (msg : String)
    (h1 : req.pathname ≠ "/health") (h2 : req.pathname ≠ "/metrics")
    (h3 : ¬(req.pathname = "/ws" ∨ lookupA req.headers "upgrade" = some "websocket"))
    (h4 : (checkLimit cfg.rateLimit st.rl (clientIdOf req) now).1 = true)
    (h5 : ∀ m : Metrics, (cacheGet cfg.cache req st.cacheStore m).1 = none)
    (h6 : selectBackend st.backends req = some b)
    (h7 : oracle b.url = .error msg) :
    (handleRequest cfg st req now elapsed oracle).1.status = 502 ∧
    (handleRequest cfg st req now elapsed oracle).1.body
      = .errorJson "Backend error" msg b.url ∧
    (handleRequest cfg st req now elapsed oracle).2.backends
      = st.backends.map (fun x => if x.url = b.url then { x with healthy := false } else x) ∧
    (∀ oracle' : String → Except String BackendResp, oracle' b.url = oracle b.url →
      handleRequest cfg st req now elapsed oracle'
        = handleRequest cfg st req now elapsed oracle) := by
  have hred : ∀ o : String → Except String BackendResp, o b.url = .error msg →
      handleRequest cfg st req now elapsed o =
        ( { status := 502, statusText := ""
          , headers := [("content-type", "application/json")]
          , body := .errorJson "Backend error" msg b.url }
        , { pool := { st.pool with metrics :=
              (cacheGet cfg.cache req st.cacheStore
                { st.pool.metrics with
                    totalRequests := st.pool.metrics.totalRequests + 1 }).2 }
          , rl := (checkLimit cfg.rateLimit st.rl (clientIdOf req) now).2
          , backends := st.backends.map
              (fun x => if x.url = b.url then { x with healthy := false } else x)
          , cacheStore := st.cacheStore
          , wsPairs := st.wsPairs
          , wsTimers := st.wsTimers } ) := by
    intro o ho
    simp only [handleRequest, if_neg h1, if_neg h2, if_neg h3, h4, Bool.not_true,
      Bool.false_eq_true, if_false, h5, h6, ho]
  refine ⟨?_, ?_, ?_, ?_⟩
  · rw [hred oracle h7]
  · rw [hred oracle h7]
  · rw [hred oracle h7]
  · intro o' ho'
    rw [hred o' (ho'.trans h7), hred oracle h7]

/-- Witness for C5: in the shipped config with its sole regional backend, a
failing forward yields the 502 error body and flips the backend unhealthy. -/
theorem forward_failure_marks_unhealthy_502_witness :
    (handleRequest CONFIG
        { pool := ConnectionPool.empty, rl := [], backends := CONFIG.backends
        , cacheStore := [], wsPairs := 0, wsTimers := 0 }
        { method := "GET", pathname := "/x", search := "", headers := [] }
        0 0 (fun _ => .error "boom")).1.status = 502 ∧
    (handleRequest CONFIG
        { pool := ConnectionPool.empty, rl := [], backends := CONFIG.backends
        , cacheStore := [], wsPairs := 0, wsTimers := 0 }
        { method := "GET", pathname := "/x", search := "", headers := [] }
        0 0 (fun _ => .error "boom")).1.body
      = .errorJson "Backend error" "boom" "https://api.example.com" := by
  have h := forward_failure_marks_unhealthy_502 CONFIG
    { pool := ConnectionPool.empty, rl := [], backends := CONFIG.backends
    , cacheStore := [], wsPairs := 0, wsTimers := 0 }
    { method := "GET", pathname := "/x", search := "", headers := [] }
    0 0 (fun _ => .error "boom")
    { url := "https://api.example.com", priority := 1, region := "us-east", healthy := true }
    "boom" (by decide) (by decide) (by decide) (by decide) (fun m => rfl) (by decide) rfl
  exact ⟨h.1, h.2.1⟩

end Worker
